import Mathlib

set_option linter.all false

/-!
Verification development for the two page components of
`src/app/dashboard/teacher/assignmentsubmission/page.tsx`:
the submission review/grading screen (`AssignmentSubmissionsClient`)
and the assignment-taking screen (`AssignmentSubmitClient`).

The embedding models JSON values structurally (local storage and request
bodies hold `Json` values; `JSON.stringify`/`JSON.parse` are treated as the
identity between a value and its serialized form), machine numbers as `Int`,
fallible reads as `Option`, and the React state held by each component as an
explicit record threaded through pure transition functions.
-/

namespace Elms

/-- Structural model of a JavaScript JSON value. -/
inductive Json where
  | null : Json
  | bool (b : Bool) : Json
  | num (n : Int) : Json
  | str (s : String) : Json
  | arr (elems : List Json) : Json
  | obj (fields : List (String × Json)) : Json

/-- Field lookup on a JSON object (`j?.k`); `none` on non-objects or missing keys. -/
def jsonLookup (j : Json) (k : String) : Option Json :=
  match j with
  | Json.obj fs => fs.lookup k
  | _ => none

/-- JavaScript truthiness of a JSON value. -/
def jsTruthy (j : Json) : Bool :=
  match j with
  | Json.null => false
  | Json.bool b => b
  | Json.num n => n != 0
  | Json.str s => s != ""
  | Json.arr _ => true
  | Json.obj _ => true

/-- Truthiness of an optional string (`undefined`/`null`/`""` are falsy). -/
def optStrTruthy : Option String → Bool
  | none => false
  | some s => s != ""

/-- Model of `json?.message || fallback`: the message field when it is a
truthy string, otherwise `none` (callers then use their generic fallback). -/
def jsonMessage (j : Json) : Option String :=
  match jsonLookup j "message" with
  | some (Json.str s) => if s = "" then none else some s
  | _ => none

/-- Model of `json.data || json`: a plain (non-optional) property access, so
reading `data` on a null body throws a TypeError (modelled as `none`);
otherwise the result is the `data` field when truthy, else the bare payload
(property access on non-null primitives yields `undefined`, which is falsy). -/
def jsDataOf : Json → Option Json
  | Json.null => none
  | j =>
    match jsonLookup j "data" with
    | some d => if jsTruthy d then some d else some j
    | none => some j

/-- An answer value: `string | string[]` from the source types. -/
inductive Answer where
  | str (s : String) : Answer
  | arr (l : List String) : Answer
deriving DecidableEq, Repr

/-- Source type `AnswerEntry`: `{ questionId: string; answer: string | string[] }`. -/
structure AnswerEntry where
  questionId : String
  answer : Answer
deriving DecidableEq, Repr

/-- The browser's local persistent key-value store, holding parsed JSON values. -/
def Storage : Type := String → Option Json

/-- Model of `localStorage.setItem`. -/
def storageSet (st : Storage) (k : String) (v : Json) : Storage :=
  fun k2 => if k2 = k then some v else st k2

/-- Model of `localStorage.removeItem`. -/
def storageRemove (st : Storage) (k : String) : Storage :=
  fun k2 => if k2 = k then none else st k2

/-- The draft storage key:
`assignmentId ? \x7bassignment_draft_$\x7bassignmentId\x7d\x7d : 'assignment_draft_unknown'`. -/
def localStorageKey (assignmentId : Option String) : String :=
  if optStrTruthy assignmentId then "assignment_draft_" ++ assignmentId.getD ""
  else "assignment_draft_unknown"

/-- Serialization of an answer value into JSON. -/
def encodeAnswer : Answer → Json
  | Answer.str s => Json.str s
  | Answer.arr l => Json.arr (l.map Json.str)

/-- Serialization of one `AnswerEntry` into JSON. -/
def encodeEntry (e : AnswerEntry) : Json :=
  Json.obj [("questionId", Json.str e.questionId), ("answer", encodeAnswer e.answer)]

/-- Serialization of the autosaved draft object `\x7b answers \x7d`. -/
def encodeDraft (answers : List AnswerEntry) : Json :=
  Json.obj [("answers", Json.arr (answers.map encodeEntry))]

/-- Decode a JSON string. -/
def decodeStr : Json → Option String
  | Json.str s => some s
  | _ => none

/-- Decode a list of JSON strings. -/
def decodeStrs : List Json → Option (List String)
  | [] => some []
  | j :: rest =>
    match decodeStr j, decodeStrs rest with
    | some s, some ss => some (s :: ss)
    | _, _ => none

/-- Decode an answer value (`string | string[]`). -/
def decodeAnswer : Json → Option Answer
  | Json.str s => some (Answer.str s)
  | Json.arr l => (decodeStrs l).map Answer.arr
  | _ => none

/-- Decode one answer entry. -/
def decodeEntry (j : Json) : Option AnswerEntry :=
  match jsonLookup j "questionId", jsonLookup j "answer" with
  | some (Json.str q), some aj => (decodeAnswer aj).map (fun a => ⟨q, a⟩)
  | _, _ => none

/-- Decode a list of answer entries. -/
def decodeEntries : List Json → Option (List AnswerEntry)
  | [] => some []
  | j :: rest =>
    match decodeEntry j, decodeEntries rest with
    | some e, some es => some (e :: es)
    | _, _ => none

/-- The draft well-formedness check of the load effect
(`draft && Array.isArray(draft.answers)`), together with reading the entries
back at their declared type `AnswerEntry[]`: `none` unless the value is an
object whose `answers` field is an array of answer entries. -/
def decodeDraft (j : Json) : Option (List AnswerEntry) :=
  match jsonLookup j "answers" with
  | some (Json.arr es) => decodeEntries es
  | _ => none

/-- Read and decode the persisted draft stored under `key` (absent or
unparseable raw values are `none`, matching the `try/catch` around
`JSON.parse`). -/
def readDraft (st : Storage) (key : String) : Option (List AnswerEntry) :=
  (st key).bind decodeDraft

/-- Question type tag from the source union. -/
inductive QType where
  | MULTIPLE_CHOICE : QType
  | TRUE_FALSE : QType
  | SHORT_ANSWER : QType
  | ESSAY : QType
deriving DecidableEq, Repr

/-- Source type `Question` (`options`, `correctAnswer`, `order` optional). -/
structure Question where
  question : String
  type : QType
  options : Option (List String)
  correctAnswer : Option Answer
  points : Int
  order : Option Int
deriving DecidableEq, Repr

/-- Source type `Assignment` (fields not used by the core logic kept as
optional data). -/
structure Assignment where
  _id : String
  title : String
  description : Option String
  status : String
  totalPoints : Option Int
  dueDate : Option String
  questions : List Question
deriving DecidableEq, Repr

/-- The derived question identifier `((q.order ?? i) as number).toString()`. -/
def deriveQId (q : Question) (i : Nat) : String :=
  toString (q.order.getD (Int.ofNat i))

/-- The initial empty value for a question:
`Array.isArray(q.correctAnswer) ? [] : ''`. -/
def emptyAnswerFor (q : Question) : Answer :=
  match q.correctAnswer with
  | some (Answer.arr _) => Answer.arr []
  | _ => Answer.str ""

/-- The initializer `(a.questions || []).map((q, i) => (...))`, written with an
explicit positional index. -/
def initAnswersFrom : List Question → Nat → List AnswerEntry
  | [], _ => []
  | q :: rest, i => ⟨deriveQId q i, emptyAnswerFor q⟩ :: initAnswersFrom rest (i + 1)

/-- Initial answers for an assignment with no usable cached draft. -/
def initAnswers (a : Assignment) : List AnswerEntry :=
  initAnswersFrom a.questions 0

/-- The derived question identifiers of an assignment, in question order. -/
def derivedIdsFrom : List Question → Nat → List String
  | [], _ => []
  | q :: rest, i => deriveQId q i :: derivedIdsFrom rest (i + 1)

/-- All derived question identifiers of an assignment. -/
def derivedIds (a : Assignment) : List String :=
  derivedIdsFrom a.questions 0

/-- The draft-restoration step of the load effect: adopt a well-formed cached
draft verbatim, otherwise initialize one entry per question. `stored` is the
raw value under the assignment's storage key (`none` when absent or not
parseable). -/
def loadAnswers (stored : Option Json) (a : Assignment) : List AnswerEntry :=
  match stored.bind decodeDraft with
  | some l => l
  | none => initAnswers a

/-- Model of `setAnswer(questionId, value)`: replace the answer of the first entry with
this identifier (`findIndex` then in-place replacement keeping the entry's
`questionId`), appending a fresh entry when none exists (`copy.push`). -/
def setAnswer : List AnswerEntry → String → Answer → List AnswerEntry
  | [], questionId, value => [⟨questionId, value⟩]
  | e :: rest, questionId, value =>
    if e.questionId = questionId then { e with answer := value } :: rest
    else e :: setAnswer rest questionId value

/-- The inner list update of `toggleMulti`: `current.indexOf(option)` then
`splice` (remove the first occurrence) when found, `push` (append) otherwise. -/
def toggleOption (current : List String) (option : String) : List String :=
  if option ∈ current then current.erase option else current ++ [option]

/-- Model of `Array.isArray(answer) ? [...answer] : []`: a string-valued answer is
discarded and treated as the empty selection. -/
def answerAsList : Answer → List String
  | Answer.arr l => l
  | Answer.str _ => []

/-- Model of `toggleMulti(questionId, option)`: no-op when no entry matches
(`idx === -1`); otherwise the first matching entry's answer becomes the toggled
selection array. -/
def toggleMulti : List AnswerEntry → String → String → List AnswerEntry
  | [], _, _ => []
  | e :: rest, questionId, option =>
    if e.questionId = questionId then
      { e with answer := Answer.arr (toggleOption (answerAsList e.answer) option) } :: rest
    else e :: toggleMulti rest questionId option

/-- The autosave effect body (runs whenever the in-memory answers change while
an assignment is loaded): write `\x7b answers \x7d` under the draft key. -/
def autosaveWrite (st : Storage) (assignmentId : Option String) (answers : List AnswerEntry) : Storage :=
  storageSet st (localStorageKey assignmentId) (encodeDraft answers)

/-- Outcome of one `fetch` call: transport failure (the rejection's message),
or an HTTP response with its ok flag, status code, and parsed body (the body is
the result of `res.json().catch(() => (\x7b\x7d))`, so an unparseable body is the
empty object). -/
inductive FetchOutcome where
  | networkError (message : String) : FetchOutcome
  | response (ok : Bool) (status : Nat) (body : Json) : FetchOutcome

/-- Alert severities of the assignment-taking page. -/
inductive AlertType where
  | success : AlertType
  | danger : AlertType
  | info : AlertType
deriving DecidableEq, Repr

/-- A displayed alert. -/
structure Alert where
  type : AlertType
  message : String

/-- The state of `AssignmentSubmitClient` touched by `handleSubmit`. The timer
is modelled by whether the recurring interval is still registered; the stored
`SubmissionResponse` is kept as the raw JSON payload the code casts. -/
structure SubmitState where
  answers : List AnswerEntry
  storage : Storage
  timerRunning : Bool
  result : Option Json
  alert : Option Alert
  submitting : Bool

/-- The generic failure message `Submission failed ($\x7bres.status\x7d)`. -/
def submitFailMsg (status : Nat) : String :=
  "Submission failed (" ++ toString status ++ ")"

/-- The message of the TypeError the catch block receives when `json.data` is
read on a null response body; the exact wording is JavaScript-engine specific
and immaterial to the state transition. -/
def nullDataErrorMsg : String :=
  "Cannot read properties of null (reading 'data')"

/-- Model of `handleSubmit`: guard on a truthy assignment id, POST the draft,
and on a 2xx response evaluate `json.data || json`; when that succeeds store
the (possibly enveloped) result, delete the persisted draft, and clear the
interval, but when the body is null the property access throws and the catch
block only sets a danger alert, leaving result, draft and timer untouched; on
any other failure only set a danger alert (`message || 'Submission failed'`).
`finally` resets the submitting flag. -/
def handleSubmit (assignmentId : Option String) (st : SubmitState)
    (outcome : FetchOutcome) : SubmitState :=
  if ¬ optStrTruthy assignmentId then
    { st with alert := some ⟨AlertType.danger, "Missing assignment ID."⟩ }
  else
    match outcome with
    | FetchOutcome.networkError m =>
      { st with
        alert := some ⟨AlertType.danger, if m = "" then "Submission failed" else m⟩,
        submitting := false }
    | FetchOutcome.response ok status body =>
      if ok then
        match jsDataOf body with
        | some data =>
          { st with
            result := some data,
            storage := storageRemove st.storage (localStorageKey assignmentId),
            timerRunning := false,
            alert := some ⟨AlertType.success, (jsonMessage body).getD "Submitted successfully"⟩,
            submitting := false }
        | none =>
          { st with
            alert := some ⟨AlertType.danger, nullDataErrorMsg⟩,
            submitting := false }
      else
        { st with
          alert := some ⟨AlertType.danger, (jsonMessage body).getD (submitFailMsg status)⟩,
          submitting := false }

/-! ### Review side (`AssignmentSubmissionsClient`) -/

/-- Source type `StudentRef`. -/
structure StudentRef where
  _id : String
  firstName : Option String
  lastName : Option String
  email : Option String
  avatar : Option String
deriving DecidableEq, Repr

/-- Source type `Submission` (review side). -/
structure Submission where
  _id : String
  assignmentId : String
  studentId : Option StudentRef
  status : String
  score : Option Int
  attemptNumber : Int
  submittedAt : String
  answers : Option (List AnswerEntry)
  timeSpent : Option Int
deriving DecidableEq, Repr

/-- The `PAGE_SIZE` constant. -/
def PAGE_SIZE : Nat := 12

/-- Substring test modelling JavaScript `String.prototype.includes`. -/
def strIncludes (s q : String) : Bool :=
  (List.range (s.length + 1)).any (fun i => q.isPrefixOf (s.drop i))

/-- The searchable student name:
`s.studentId ? (first ?? '') + ' ' + (last ?? '') trimmed, lowercased : ''`. -/
def studentNameKey (s : Submission) : String :=
  match s.studentId with
  | some st => (((st.firstName.getD "") ++ " " ++ (st.lastName.getD "")).trim).toLower
  | none => ""

/-- The searchable student email: `s.studentId?.email?.toLowerCase() ?? ''`. -/
def studentEmailKey (s : Submission) : String :=
  match s.studentId.bind (fun st => st.email) with
  | some e => e.toLower
  | none => ""

/-- The free-text match of `filteredList` against one submission, with `q`
already trimmed and lowercased. -/
def matchesSearch (q : String) (s : Submission) : Bool :=
  strIncludes (studentNameKey s) q || strIncludes (studentEmailKey s) q ||
    strIncludes ((s.assignmentId).toLower) q

/-- Model of `filteredList()`: exact status filter (skipped for "ALL"), then free-text
filter (skipped for blank search). -/
def filteredList (submissions : List Submission) (filterStatus search : String) :
    List Submission :=
  let l1 := if filterStatus ≠ "ALL" then submissions.filter (fun s => s.status == filterStatus)
            else submissions
  if search.trim ≠ "" then l1.filter (matchesSearch ((search.trim).toLower)) else l1

/-- The single predicate the filter is claimed to keep exactly: status equality
(unless "ALL"), and, for non-blank search text, a case-insensitive substring
match against student name, student email, or assignment identifier. -/
def matchesCriteria (filterStatus search : String) (s : Submission) : Bool :=
  (filterStatus == "ALL" || s.status == filterStatus) &&
    (search.trim == "" || matchesSearch ((search.trim).toLower) s)

/-- Model of `pageItems`: `filteredList().slice((page - 1) * PAGE_SIZE, page * PAGE_SIZE)`
(the component keeps `page ≥ 1`, where `slice` is drop-then-take). -/
def pageItems (submissions : List Submission) (filterStatus search : String)
    (page : Nat) : List Submission :=
  ((filteredList submissions filterStatus search).drop ((page - 1) * PAGE_SIZE)).take PAGE_SIZE

/-- Model of `totalPages = Math.max(1, Math.ceil(totalFiltered / PAGE_SIZE))`. -/
def totalPages (submissions : List Submission) (filterStatus search : String) : Nat :=
  max 1 (((filteredList submissions filterStatus search).length + PAGE_SIZE - 1) / PAGE_SIZE)

/-- The editable grading form state (`score`, `feedback`, both optional). -/
structure Grading where
  score : Option Int
  feedback : Option String
deriving DecidableEq, Repr

/-- Model of `onChangeScore(v)`: sets `score` to `undefined` for the empty input and to
the parsed number otherwise; `parsed` is that already-parsed numeric value. -/
def onChangeScore (g : Option Grading) (parsed : Option Int) : Option Grading :=
  some { (g.getD ⟨none, none⟩) with score := parsed }

/-- The PUT body `JSON.stringify(\x7b score, status: "GRADED", feedback \x7d)`:
`JSON.stringify` omits fields whose value is `undefined`. -/
def gradeBodyJson (g : Grading) : Json :=
  Json.obj
    ((match g.score with
      | some n => [("score", Json.num n)]
      | none => []) ++
     [("status", Json.str "GRADED")] ++
     (match g.feedback with
      | some f => [("feedback", Json.str f)]
      | none => []))

/-- The optimistic row patch applied after a successful grade save:
`\x7b ...p, score: grading.score ?? p.score, status: "GRADED" \x7d`. -/
def patchSubmission (g : Grading) (p : Submission) : Submission :=
  { p with score := (match g.score with | some n => some n | none => p.score),
           status := "GRADED" }

/-- The state of `AssignmentSubmissionsClient` touched by `saveGrade`. -/
structure ReviewState where
  submissions : List Submission
  selected : Option Submission
  grading : Option Grading
  error : Option String
  savingGrade : Bool

/-- The intermediate detail-view patch (`setSelected(s => s ? patched : s)`),
before `closeDetail()` clears the selection. -/
def patchSelected (g : Grading) (sel : Option Submission) : Option Submission :=
  sel.map (patchSubmission g)

/-- The generic grade-save failure message `Failed to save ($\x7bres.status\x7d)`. -/
def saveFailMsg (status : Nat) : String :=
  "Failed to save (" ++ toString status ++ ")"

/-- Model of `saveGrade()`: no-op without a selection or grading form; on success patch
every list row carrying the selected id, patch the detail record, then
`closeDetail()` (selection and grading cleared); on failure only set the error.
`finally` resets the saving flag. -/
def saveGrade (st : ReviewState) (outcome : FetchOutcome) : ReviewState :=
  match st.selected, st.grading with
  | none, _ => st
  | some _, none => st
  | some sel, some g =>
    match outcome with
    | FetchOutcome.networkError m =>
      { st with error := some m, savingGrade := false }
    | FetchOutcome.response ok status body =>
      if ok then
        { st with
          submissions := st.submissions.map
            (fun p => if p._id = sel._id then patchSubmission g p else p),
          selected := none,
          grading := none,
          savingGrade := false }
      else
        { st with
          error := some ((jsonMessage body).getD (saveFailMsg status)),
          savingGrade := false }

/-! ### Assignment discovery (`discoverAssignmentForUser`) -/

/-- A backend reference that is either a bare id string or an object carrying
`_id` (the source's `string | \x7b _id: string \x7d` unions). -/
inductive IdRef where
  | plain (s : String) : IdRef
  | obj (id : String) : IdRef
deriving DecidableEq, Repr

/-- Model of `typeof r === 'string' ? r : r?._id`. -/
def IdRef.key : IdRef → String
  | IdRef.plain s => s
  | IdRef.obj i => i

/-- The cached `user` record from local storage (`IUserLS`). -/
structure IUserLS where
  _id : String
  firstName : Option String
  lastName : Option String
  email : Option String
deriving DecidableEq, Repr

/-- Source type `IEnrollment`. -/
structure IEnrollment where
  _id : String
  studentId : IdRef
  courseId : IdRef
deriving DecidableEq, Repr

/-- The lightweight `IAssignment` used by discovery. -/
structure IAssignmentLite where
  _id : String
  courseId : IdRef
  title : String
  status : Option String
deriving DecidableEq, Repr

/-- First-occurrence deduplication, modelling `Array.from(new Set(...))`
(removing later duplicates of the head commutes with deduplicating the tail). -/
def dedupFirst : List String → List String
  | [] => []
  | a :: l => a :: (dedupFirst l).filter (fun x => x ≠ a)

/-- The enrolled-course-id set of `discoverAssignmentForUser`: course ids of
this user's enrollments, with falsy ids removed (`.filter(Boolean)`),
deduplicated. -/
def enrolledCourseIds (userId : String) (enrollments : List IEnrollment) : List String :=
  dedupFirst
    (((enrollments.filter (fun e => e.studentId.key == userId)).map
        (fun e => e.courseId.key)).filter (fun cid => cid ≠ ""))

/-- Model of `discoverAssignmentForUser` as a function of its three inputs: the cached
user record (`none` when absent or unparseable), the fetched enrollments, and
the fetched assignments. Returns the resolved assignment id, `none` when
discovery aborts or nothing matches. -/
def discoverAssignmentForUser (user : Option IUserLS)
    (enrollments : List IEnrollment) (allAssignments : List IAssignmentLite) :
    Option String :=
  match user with
  | none => none
  | some u =>
    if u._id = "" then none
    else
      let courseIds := enrolledCourseIds u._id enrollments
      if courseIds.isEmpty then none
      else
        ((allAssignments.filter
            (fun a => a.courseId.key ≠ "" && courseIds.contains a.courseId.key)).head?).map
          (fun a => a._id)

/-- The claim's description of discovery, written from the spec's words: the
first element of the fetched assignment list whose course identifier belongs to
the set of course identifiers of the current user's enrollments. -/
def specResolve (u : IUserLS) (enrollments : List IEnrollment)
    (allAssignments : List IAssignmentLite) : Option String :=
  let myCourseIds :=
    (enrollments.filter (fun e => e.studentId.key == u._id)).map (fun e => e.courseId.key)
  ((allAssignments.filter (fun a => myCourseIds.contains a.courseId.key)).head?).map
    (fun a => a._id)

/-- The amended description: course identifiers that are empty strings are
ignored on both sides (the code's `.filter(Boolean)` and `cid && ...` guards). -/
def specResolveAmended (u : IUserLS) (enrollments : List IEnrollment)
    (allAssignments : List IAssignmentLite) : Option String :=
  let myCourseIds :=
    (((enrollments.filter (fun e => e.studentId.key == u._id)).map
        (fun e => e.courseId.key)).filter (fun cid => cid ≠ ""))
  ((allAssignments.filter
      (fun a => a.courseId.key ≠ "" && myCourseIds.contains a.courseId.key)).head?).map
    (fun a => a._id)

/-- The overall resolved assignment id: a truthy route-level id is used
directly (discovery skipped); otherwise the state keeps the discovery result
when one is produced, or the original route value when not. -/
def resolveAssignmentId (routeId : Option String) (user : Option IUserLS)
    (enrollments : List IEnrollment) (allAssignments : List IAssignmentLite) :
    Option String :=
  if optStrTruthy routeId then routeId
  else
    match discoverAssignmentForUser user enrollments allAssignments with
    | some a => some a
    | none => routeId

/-! ### Concrete fixtures used by witnesses and counterexamples -/

/-- A multi-select multiple-choice question (array-valued `correctAnswer`). -/
def qMulti : Question :=
  ⟨"Pick all that apply", QType.MULTIPLE_CHOICE, some ["A", "B", "C"],
    some (Answer.arr ["A", "B"]), 5, none⟩

/-- A true/false question. -/
def qTF : Question :=
  ⟨"True or false", QType.TRUE_FALSE, none, some (Answer.str "true"), 2, none⟩

/-- An essay question with no correct-answer reference. -/
def qEssay : Question := ⟨"Explain", QType.ESSAY, none, none, 10, none⟩

/-- A three-question assignment with no explicit order indices. -/
def aEx : Assignment :=
  ⟨"a1", "Quiz 1", none, "PUBLISHED", some 17, none, [qMulti, qTF, qEssay]⟩

/-- A question carrying the explicit order index 1. -/
def qOrder1 : Question := ⟨"With order", QType.SHORT_ANSWER, none, none, 1, some 1⟩

/-- A question with no explicit order index. -/
def qNoOrder : Question := ⟨"Without order", QType.SHORT_ANSWER, none, none, 1, none⟩

/-- An assignment mixing explicit and absent order indices: the first question
derives identifier "1" from its order index and the second derives "1" from
its position. -/
def aMixed : Assignment :=
  ⟨"a2", "Mixed", none, "PUBLISHED", none, none, [qOrder1, qNoOrder]⟩

/-- Empty local storage. -/
def storageEmpty : Storage := fun _ => none

/-- A submit-page state with a running timer and one draft answer. -/
def submitStEx : SubmitState :=
  ⟨[⟨"0", Answer.str "B"⟩], storageEmpty, true, none, none, true⟩

/-- A successful submit response body with a `data` envelope. -/
def okBody : Json :=
  Json.obj [("data", Json.obj [("status", Json.str "SUBMITTED"), ("attemptNumber", Json.num 1)])]

/-- A submit-page state whose storage holds a persisted draft for assignment
"a1" and whose timer is running. -/
def submitStDraft : SubmitState :=
  ⟨[⟨"0", Answer.str "B"⟩],
   storageSet storageEmpty (localStorageKey (some "a1"))
     (encodeDraft [⟨"0", Answer.str "B"⟩]),
   true, none, none, true⟩

/-- A student record. -/
def studentAlice : StudentRef :=
  ⟨"s1", some "Alice", some "Smith", some "alice@example.com", none⟩

/-- A submission with an existing score. -/
def subEx : Submission :=
  ⟨"sub1", "a1", some studentAlice, "SUBMITTED", some 70, 1, "2026-01-01", none, some 120⟩

/-- A second submission. -/
def subEx2 : Submission :=
  ⟨"sub2", "a1", none, "LATE", none, 1, "2026-01-02", none, none⟩

/-- A grading form with score 85 and feedback "Good work". -/
def gradingEx : Grading := ⟨some 85, some "Good work"⟩

/-- A grading form whose score input was cleared. -/
def gradingNoScore : Grading := ⟨none, some "ok"⟩

/-- A review-page state with `subEx` open for grading with `gradingEx`. -/
def reviewStEx : ReviewState := ⟨[subEx, subEx2], some subEx, some gradingEx, none, true⟩

/-- A review-page state with `subEx` open for grading with an absent score. -/
def reviewSt10 : ReviewState := ⟨[subEx], some subEx, some gradingNoScore, none, true⟩

/-- A bare successful HTTP response with an empty-object body. -/
def okResponse : FetchOutcome := FetchOutcome.response true 200 (Json.obj [])

/-- A cached user record whose `_id` is the empty string. -/
def userEmptyId : IUserLS := ⟨"", none, none, none⟩

/-- An enrollment whose student reference is the empty string. -/
def enrollEmptySid : IEnrollment := ⟨"e1", IdRef.plain "", IdRef.plain "c1"⟩

/-- An assignment in course "c1". -/
def assignC1 : IAssignmentLite := ⟨"a10", IdRef.plain "c1", "Course-1 work", none⟩

/-- A cached user record with id "u1". -/
def userU : IUserLS := ⟨"u1", none, none, none⟩

/-- An enrollment of "u1" whose course reference is the empty string. -/
def enrollEmptyCourse : IEnrollment := ⟨"e2", IdRef.plain "u1", IdRef.plain ""⟩

/-- An assignment whose course reference is the empty string. -/
def assignEmptyCourse : IAssignmentLite := ⟨"a11", IdRef.plain "", "No course", none⟩

/-- A well-formed enrollment of "u1" in course "c2". -/
def enrollC2 : IEnrollment := ⟨"e3", IdRef.plain "u1", IdRef.obj "c2"⟩

/-- An assignment outside the enrolled courses. -/
def assignOther : IAssignmentLite := ⟨"a20", IdRef.plain "c9", "Other", none⟩

/-- An assignment in the enrolled course "c2". -/
def assignC2 : IAssignmentLite := ⟨"a21", IdRef.obj "c2", "Enrolled", none⟩

/-! ## Theorems -/

theorem initAnswersFrom_length (qs : List Question) (i : Nat) :
    (initAnswersFrom qs i).length = qs.length := by
  induction qs generalizing i with
  | nil => rfl
  | cons q rest ih => simp [initAnswersFrom, ih]

theorem initAnswersFrom_getElem? (qs : List Question) (i j : Nat) :
    (initAnswersFrom qs i)[j]? =
      (qs[j]?).map (fun q => ⟨deriveQId q (i + j), emptyAnswerFor q⟩) := by
  induction qs generalizing i j with
  | nil => simp [initAnswersFrom]
  | cons q rest ih =>
    cases j with
    | zero => simp [initAnswersFrom]
    | succ j2 =>
      simp only [initAnswersFrom, List.getElem?_cons_succ, ih]
      have h : i + 1 + j2 = i + (j2 + 1) := by omega
      rw [h]

theorem decodeStrs_map_str (l : List String) :
    decodeStrs (l.map Json.str) = some l := by
  induction l with
  | nil => rfl
  | cons s rest ih => simp [decodeStrs, decodeStr, ih]

theorem decodeAnswer_encodeAnswer (a : Answer) :
    decodeAnswer (encodeAnswer a) = some a := by
  cases a with
  | str s => rfl
  | arr l => simp [encodeAnswer, decodeAnswer, decodeStrs_map_str]

theorem decodeEntry_encodeEntry (e : AnswerEntry) :
    decodeEntry (encodeEntry e) = some e := by
  simp [decodeEntry, encodeEntry, jsonLookup, List.lookup, decodeAnswer_encodeAnswer]

theorem decodeEntries_map_encode (l : List AnswerEntry) :
    decodeEntries (l.map encodeEntry) = some l := by
  induction l with
  | nil => rfl
  | cons e rest ih => simp [decodeEntries, decodeEntry_encodeEntry, ih]

theorem decodeDraft_encodeDraft (l : List AnswerEntry) :
    decodeDraft (encodeDraft l) = some l := by
  simp [decodeDraft, encodeDraft, jsonLookup, List.lookup, decodeEntries_map_encode]

/-- C1: on a draft load, a well-formed cached draft is adopted verbatim;
otherwise the answers are initialized with exactly one entry per question, in
question order, with identifier `(q.order ?? i).toString()` and the empty set
for array-valued correct-answer references, the empty string otherwise. -/
theorem c1_draft_load (stored : Option Json) (a : Assignment) :
    (∀ l, stored.bind decodeDraft = some l → loadAnswers stored a = l) ∧
    (stored.bind decodeDraft = none →
      (loadAnswers stored a).length = a.questions.length ∧
      ∀ i, i < a.questions.length →
        (loadAnswers stored a)[i]? =
          (a.questions[i]?).map (fun q => ⟨deriveQId q i, emptyAnswerFor q⟩)) := by
  constructor
  · intro l hl
    simp [loadAnswers, hl]
  · intro hn
    constructor
    · simp [loadAnswers, hn, initAnswers, initAnswersFrom_length]
    · intro i hi
      have h := initAnswersFrom_getElem? a.questions 0 i
      simp only [Nat.zero_add] at h
      simp [loadAnswers, hn, initAnswers, h]

theorem c1_draft_load_witness :
    loadAnswers (some (encodeDraft [⟨"7", Answer.str "hi"⟩])) aEx
        = [⟨"7", Answer.str "hi"⟩] ∧
    (loadAnswers none aEx).length = 3 ∧
    (loadAnswers none aEx)[0]? = some ⟨"0", Answer.arr []⟩ ∧
    (loadAnswers none aEx)[2]? = some ⟨"2", Answer.str ""⟩ := by
  refine ⟨?_, ?_, ?_, ?_⟩
  · exact (c1_draft_load (some (encodeDraft [⟨"7", Answer.str "hi"⟩])) aEx).1
      [⟨"7", Answer.str "hi"⟩] (by decide)
  · have h := ((c1_draft_load none aEx).2 (by rfl)).1
    rw [h]; rfl
  · have h := ((c1_draft_load none aEx).2 (by rfl)).2 0 (by decide)
    rw [h]; decide
  · have h := ((c1_draft_load none aEx).2 (by rfl)).2 2 (by decide)
    rw [h]; decide

theorem readDraft_autosaveWrite (st : Storage) (aid : Option String)
    (l : List AnswerEntry) :
    readDraft (autosaveWrite st aid l) (localStorageKey aid) = some l := by
  simp [readDraft, autosaveWrite, storageSet, decodeDraft_encodeDraft]

/-- C3: after any `setAnswer` or `toggleMulti` call while an assignment is
loaded, the serialized `\x7b answers \x7d` draft written under the key derived from
the assignment identifier reads back as exactly the current in-memory answer
set. -/
theorem c3_autosave_roundtrip (st : Storage) (aid : Option String)
    (ans : List AnswerEntry) (qid : String) (v : Answer) (o : String) :
    readDraft (autosaveWrite st aid (setAnswer ans qid v)) (localStorageKey aid)
        = some (setAnswer ans qid v) ∧
    readDraft (autosaveWrite st aid (toggleMulti ans qid o)) (localStorageKey aid)
        = some (toggleMulti ans qid o) :=
  ⟨readDraft_autosaveWrite st aid (setAnswer ans qid v),
   readDraft_autosaveWrite st aid (toggleMulti ans qid o)⟩

theorem toggleMulti_no_entry (st : List AnswerEntry) (qid o : String)
    (h : ∀ e ∈ st, e.questionId ≠ qid) : toggleMulti st qid o = st := by
  induction st with
  | nil => rfl
  | cons e rest ih =>
    have he : e.questionId ≠ qid := h e (List.mem_cons_self e rest)
    simp only [toggleMulti, if_neg he]
    rw [ih (fun x hx => h x (List.mem_cons_of_mem e hx))]

theorem toggleMulti_cons (x : AnswerEntry) (rest : List AnswerEntry) (qid o : String) :
    toggleMulti (x :: rest) qid o =
      if x.questionId = qid then
        { x with answer := Answer.arr (toggleOption (answerAsList x.answer) o) } :: rest
      else x :: toggleMulti rest qid o := rfl

theorem toggleMulti_append (pre post : List AnswerEntry) (e : AnswerEntry)
    (qid o : String) (hpre : ∀ x ∈ pre, x.questionId ≠ qid)
    (he : e.questionId = qid) :
    toggleMulti (pre ++ e :: post) qid o =
      pre ++ ({ e with answer := Answer.arr (toggleOption (answerAsList e.answer) o) } :: post) := by
  induction pre with
  | nil => simp [toggleMulti_cons, he]
  | cons x rest ih =>
    have hx : x.questionId ≠ qid := hpre x (List.mem_cons_self x rest)
    have ih2 := ih (fun y hy => hpre y (List.mem_cons_of_mem x hy))
    simp only [List.cons_append]
    rw [toggleMulti_cons, if_neg hx, ih2]

theorem toggleOption_double_perm (cur : List String) (o : String)
    (hnd : cur.Nodup) : (toggleOption (toggleOption cur o) o).Perm cur := by
  by_cases h : o ∈ cur
  · have h1 : toggleOption cur o = cur.erase o := by simp [toggleOption, h]
    have h2 : o ∉ cur.erase o := hnd.not_mem_erase
    have h3 : toggleOption (cur.erase o) o = cur.erase o ++ [o] := by
      simp [toggleOption, h2]
    rw [h1, h3]
    exact (List.perm_append_singleton o _).trans (List.perm_cons_erase h).symm
  · have h1 : toggleOption cur o = cur ++ [o] := by simp [toggleOption, h]
    have h2 : toggleOption (cur ++ [o]) o = cur := by
      have hm : o ∈ cur ++ [o] := by simp
      simp only [toggleOption, if_pos hm]
      rw [List.erase_append_right _ h]
      simp
    rw [h1, h2]

/-- C4 counterexample: on an entry holding a string answer, applying
`toggleMulti` twice does not return the entry to its prior state — the string
is discarded and the entry ends as the empty selection array. -/
theorem c4_counterexample :
    toggleMulti (toggleMulti [⟨"0", Answer.str "x"⟩] "0" "a") "0" "a"
      ≠ [⟨"0", Answer.str "x"⟩] := by decide

/-- C4 (amended): when no entry carries the identifier, `toggleMulti` is a
no-op on the whole state; on an entry holding a duplicate-free answer array, a
single application appends the option if absent and removes it if present, and
a double application returns the entry's answer set to a permutation of its
prior value with the rest of the state unchanged. (As stated the claim fails:
a string-valued answer is replaced by the empty array; see the
counterexample.) -/
theorem c4_toggle_involutive (st : List AnswerEntry) (qid o : String) :
    ((∀ e ∈ st, e.questionId ≠ qid) → toggleMulti st qid o = st) ∧
    (∀ pre cur post,
      st = pre ++ ⟨qid, Answer.arr cur⟩ :: post →
      (∀ e ∈ pre, e.questionId ≠ qid) →
      cur.Nodup →
      (o ∉ cur →
        toggleMulti st qid o = pre ++ ⟨qid, Answer.arr (cur ++ [o])⟩ :: post) ∧
      (o ∈ cur →
        toggleMulti st qid o = pre ++ ⟨qid, Answer.arr (cur.erase o)⟩ :: post) ∧
      ∃ cur2, cur2.Perm cur ∧
        toggleMulti (toggleMulti st qid o) qid o
          = pre ++ ⟨qid, Answer.arr cur2⟩ :: post) := by
  constructor
  · exact toggleMulti_no_entry st qid o
  · intro pre cur post hst hpre hnd
    subst hst
    have h1 := toggleMulti_append pre post ⟨qid, Answer.arr cur⟩ qid o hpre rfl
    simp only [answerAsList] at h1
    refine ⟨?_, ?_, ?_⟩
    · intro ho
      rw [h1]
      simp [toggleOption, ho]
    · intro ho
      rw [h1]
      simp [toggleOption, ho]
    · refine ⟨toggleOption (toggleOption cur o) o, toggleOption_double_perm cur o hnd, ?_⟩
      rw [h1]
      have h2 := toggleMulti_append pre post
        ⟨qid, Answer.arr (toggleOption cur o)⟩ qid o hpre rfl
      simp only [answerAsList] at h2
      rw [h2]

theorem c4_toggle_involutive_witness :
    toggleMulti [⟨"1", Answer.arr ["A"]⟩] "1" "B"
        = [⟨"1", Answer.arr ["A", "B"]⟩] ∧
    (∃ cur2, cur2.Perm ["A"] ∧
      toggleMulti (toggleMulti [⟨"1", Answer.arr ["A"]⟩] "1" "B") "1" "B"
        = [⟨"1", Answer.arr cur2⟩]) ∧
    toggleMulti [⟨"1", Answer.arr ["A"]⟩] "9" "B" = [⟨"1", Answer.arr ["A"]⟩] := by
  have h := c4_toggle_involutive [⟨"1", Answer.arr ["A"]⟩] "1" "B"
  have h2 := h.2 [] ["A"] [] (by decide) (by intro e he; simp at he) (by decide)
  refine ⟨?_, ?_, ?_⟩
  · have := h2.1 (by decide)
    simpa using this
  · obtain ⟨cur2, hp, he⟩ := h2.2.2
    exact ⟨cur2, hp, by simpa using he⟩
  · exact (c4_toggle_involutive [⟨"1", Answer.arr ["A"]⟩] "9" "B").1
      (by intro e he; simp at he; subst he; decide)

/-- C9: toggling an option on an entry whose current answer is a plain string
discards the string and treats it as the empty selection, yielding the
one-element set; the prior string is not recoverable by a second toggle, which
yields the empty set instead of the original state. -/
theorem c9_string_answer_toggle (pre post : List AnswerEntry) (s qid o : String)
    (hpre : ∀ e ∈ pre, e.questionId ≠ qid) :
    toggleMulti (pre ++ ⟨qid, Answer.str s⟩ :: post) qid o
        = pre ++ ⟨qid, Answer.arr [o]⟩ :: post ∧
    toggleMulti (toggleMulti (pre ++ ⟨qid, Answer.str s⟩ :: post) qid o) qid o
        = pre ++ ⟨qid, Answer.arr []⟩ :: post ∧
    toggleMulti (toggleMulti (pre ++ ⟨qid, Answer.str s⟩ :: post) qid o) qid o
        ≠ pre ++ ⟨qid, Answer.str s⟩ :: post := by
  have h1 := toggleMulti_append pre post ⟨qid, Answer.str s⟩ qid o hpre rfl
  simp only [answerAsList] at h1
  have ht1 : toggleOption [] o = [o] := by simp [toggleOption]
  rw [ht1] at h1
  have h2 := toggleMulti_append pre post ⟨qid, Answer.arr [o]⟩ qid o hpre rfl
  simp only [answerAsList] at h2
  have ht2 : toggleOption [o] o = [] := by simp [toggleOption, List.erase_cons_head]
  rw [ht2] at h2
  refine ⟨h1, by rw [h1, h2], ?_⟩
  rw [h1, h2]
  intro hcontra
  have h3 := List.append_cancel_left hcontra
  have h4 : Answer.arr [] = Answer.str s := congrArg AnswerEntry.answer (List.head_eq_of_cons_eq h3)
  exact absurd h4 (by simp)

theorem c9_string_answer_toggle_witness :
    toggleMulti [⟨"0", Answer.str "hello"⟩] "0" "A"
        = [⟨"0", Answer.arr ["A"]⟩] ∧
    toggleMulti (toggleMulti [⟨"0", Answer.str "hello"⟩] "0" "A") "0" "A"
        = [⟨"0", Answer.arr []⟩] ∧
    toggleMulti (toggleMulti [⟨"0", Answer.str "hello"⟩] "0" "A") "0" "A"
        ≠ [⟨"0", Answer.str "hello"⟩] := by
  have h := c9_string_answer_toggle [] [] "hello" "0" "A" (by intro e he; simp at he)
  simpa using h

theorem initAnswersFrom_map_questionId (qs : List Question) (i : Nat) :
    (initAnswersFrom qs i).map (fun e => e.questionId) = derivedIdsFrom qs i := by
  induction qs generalizing i with
  | nil => rfl
  | cons q rest ih => simp [initAnswersFrom, derivedIdsFrom, ih]

theorem setAnswer_map_questionId (ans : List AnswerEntry) (qid : String) (v : Answer)
    (h : qid ∈ ans.map (fun e => e.questionId)) :
    (setAnswer ans qid v).map (fun e => e.questionId)
      = ans.map (fun e => e.questionId) := by
  induction ans with
  | nil => simp at h
  | cons e rest ih =>
    by_cases he : e.questionId = qid
    · simp [setAnswer, he]
    · have h2 : qid ∈ rest.map (fun x => x.questionId) := by
        simp only [List.map_cons, List.mem_cons] at h
        rcases h with h | h
        · exact absurd h.symm he
        · exact h
      simp [setAnswer, he, ih h2]

theorem toggleMulti_map_questionId (ans : List AnswerEntry) (qid o : String) :
    (toggleMulti ans qid o).map (fun e => e.questionId)
      = ans.map (fun e => e.questionId) := by
  induction ans with
  | nil => rfl
  | cons e rest ih =>
    by_cases he : e.questionId = qid
    · simp [toggleMulti_cons, he]
    · simp [toggleMulti_cons, he, ih]

/-- C5 counterexample: in an assignment mixing an explicit order index 1 with
an unordered question at position 1, initialization produces two entries with
the same derived identifier "1", violating the claimed no-duplicates
invariant. -/
theorem c5_counterexample :
    (initAnswers aMixed).map (fun e => e.questionId) = ["1", "1"] ∧
    ¬ (((initAnswers aMixed).map (fun e => e.questionId)).Nodup) := by
  constructor
  · decide
  · decide

/-- C5 (amended): provided the derived question identifiers of the assignment
are pairwise distinct, initialization produces exactly one entry per question
in question order whose identifiers are the derived identifiers with no
duplicates, and the identifier list is preserved by `setAnswer` (for an
identifier drawn from the assignment's derived identifiers) and by
`toggleMulti`. (As stated for arbitrary assignments the claim fails: mixed
explicit/positional order indices can collide; see the counterexample.) -/
theorem c5_answer_entry_invariant (a : Assignment)
    (h : (derivedIds a).Nodup) :
    (initAnswers a).map (fun e => e.questionId) = derivedIds a ∧
    ((initAnswers a).map (fun e => e.questionId)).Nodup ∧
    (initAnswers a).length = a.questions.length ∧
    (∀ ans qid v, ans.map (fun e => e.questionId) = derivedIds a →
      qid ∈ derivedIds a →
      (setAnswer ans qid v).map (fun e => e.questionId) = derivedIds a) ∧
    (∀ ans qid o, ans.map (fun e => e.questionId) = derivedIds a →
      (toggleMulti ans qid o).map (fun e => e.questionId) = derivedIds a) := by
  have hmap : (initAnswers a).map (fun e => e.questionId) = derivedIds a :=
    initAnswersFrom_map_questionId a.questions 0
  refine ⟨hmap, hmap ▸ h, initAnswersFrom_length a.questions 0, ?_, ?_⟩
  · intro ans qid v hinv hq
    rw [setAnswer_map_questionId ans qid v (hinv ▸ hq), hinv]
  · intro ans qid o hinv
    rw [toggleMulti_map_questionId, hinv]

theorem c5_answer_entry_invariant_witness :
    (initAnswers aEx).map (fun e => e.questionId) = ["0", "1", "2"] ∧
    ((initAnswers aEx).map (fun e => e.questionId)).Nodup ∧
    (setAnswer (initAnswers aEx) "1" (Answer.str "true")).map (fun e => e.questionId)
      = derivedIds aEx := by
  have h := c5_answer_entry_invariant aEx (by decide)
  refine ⟨?_, h.2.1, ?_⟩
  · rw [h.1]; decide
  · exact h.2.2.2.1 (initAnswers aEx) "1" (Answer.str "true") h.1 (by decide)

theorem filter_twice {α : Type} (p : α → Bool) (l : List α) :
    (l.filter p).filter p = l.filter p := by
  induction l with
  | nil => rfl
  | cons a t ih => by_cases h : p a <;> simp [List.filter_cons, h, ih]

theorem filteredList_eq_filter (subs : List Submission) (fs se : String) :
    filteredList subs fs se = subs.filter (matchesCriteria fs se) := by
  by_cases h1 : fs = "ALL" <;> by_cases h2 : se.trim = ""
  · subst h1
    simp only [filteredList, ne_eq, not_true_eq_false, ite_false, h2,
      not_false_eq_true, ite_true]
    symm
    rw [List.filter_eq_self]
    intro s _
    simp [matchesCriteria, h2]
  · subst h1
    simp only [filteredList, ne_eq, not_true_eq_false, ite_false, h2,
      not_false_eq_true, ite_true, if_neg]
    apply List.filter_congr
    intro s _
    have hb2 : (se.trim == "") = false := by
      simp only [beq_eq_false_iff_ne, ne_eq]; exact h2
    simp [matchesCriteria, hb2]
  · simp only [filteredList, ne_eq, h1, not_false_eq_true, ite_true, h2,
      not_true_eq_false, ite_false]
    apply List.filter_congr
    intro s _
    have hb1 : (fs == "ALL") = false := by
      simp only [beq_eq_false_iff_ne, ne_eq]; exact h1
    simp [matchesCriteria, hb1, h2]
  · simp only [filteredList, ne_eq, h1, not_false_eq_true, ite_true, h2]
    rw [List.filter_filter]
    apply List.filter_congr
    intro s _
    have hb1 : (fs == "ALL") = false := by
      simp only [beq_eq_false_iff_ne, ne_eq]; exact h1
    have hb2 : (se.trim == "") = false := by
      simp only [beq_eq_false_iff_ne, ne_eq]; exact h2
    simp [matchesCriteria, hb1, hb2, Bool.and_comm]

theorem flatten_chunks {α : Type} (k : Nat) (hk : 0 < k) :
    ∀ (n : Nat) (l : List α), l.length ≤ n * k →
    ((List.range n).map (fun i => (l.drop (i * k)).take k)).flatten = l := by
  intro n
  induction n with
  | zero =>
    intro l hl
    have hz : l.length = 0 := Nat.le_zero.mp (by simpa using hl)
    have : l = [] := List.eq_nil_of_length_eq_zero hz
    simp [this]
  | succ n ih =>
    intro l hl
    rw [List.range_succ_eq_map, List.map_cons, List.map_map, List.flatten_cons]
    have hrw : ((List.range n).map ((fun i => (l.drop (i * k)).take k) ∘ Nat.succ))
        = (List.range n).map (fun i => ((l.drop k).drop (i * k)).take k) := by
      apply List.map_congr_left
      intro i _
      simp only [Function.comp_apply]
      rw [List.drop_drop]
      have he : Nat.succ i * k = k + i * k := by
        rw [Nat.succ_mul]; omega
      rw [he]
    have hlen : (l.drop k).length ≤ n * k := by
      simp only [List.length_drop]
      have hs : (n + 1) * k = n * k + k := Nat.succ_mul n k
      omega
    rw [hrw, ih (l.drop k) hlen]
    simp [List.take_append_drop]

/-- C7: review-list filtering is idempotent and order-preserving, keeps exactly
the submissions matching the status filter (unless "ALL") and, for non-blank
search text, the case-insensitive free-text match over student name, student
email and assignment identifier; pagination slices never exceed the filtered
count and, concatenated over all pages, cover the filtered list exactly. -/
theorem c7_filter_pagination (subs : List Submission) (fs se : String) :
    filteredList (filteredList subs fs se) fs se = filteredList subs fs se ∧
    (filteredList subs fs se).Sublist subs ∧
    filteredList subs fs se = subs.filter (matchesCriteria fs se) ∧
    (∀ page, (pageItems subs fs se page).length
        ≤ (filteredList subs fs se).length) ∧
    ((List.range (totalPages subs fs se)).map
        (fun i => pageItems subs fs se (i + 1))).flatten
      = filteredList subs fs se := by
  refine ⟨?_, ?_, filteredList_eq_filter subs fs se, ?_, ?_⟩
  · simp only [filteredList_eq_filter]
    exact filter_twice _ _
  · rw [filteredList_eq_filter]
    exact List.filter_sublist subs
  · intro page
    simp only [pageItems, List.length_take, List.length_drop]
    omega
  · have hb : (filteredList subs fs se).length
        ≤ (totalPages subs fs se) * PAGE_SIZE := by
      have h1 := Nat.div_add_mod ((filteredList subs fs se).length + 11) 12
      have h2 : ((filteredList subs fs se).length + 11) % 12 < 12 :=
        Nat.mod_lt _ (by norm_num)
      simp only [totalPages, PAGE_SIZE]
      omega
    have hmap : (List.range (totalPages subs fs se)).map
          (fun i => pageItems subs fs se (i + 1))
        = (List.range (totalPages subs fs se)).map
          (fun i => ((filteredList subs fs se).drop (i * PAGE_SIZE)).take PAGE_SIZE) := by
      apply List.map_congr_left
      intro i _
      simp [pageItems]
    rw [hmap]
    exact flatten_chunks PAGE_SIZE (by norm_num [PAGE_SIZE]) (totalPages subs fs se)
      (filteredList subs fs se) hb

/-- C2 counterexample: a successful (2xx) backend response whose JSON body is
the literal null. `res.json()` resolves to null, so reading `json.data`
throws, and the catch block runs: no submission result is stored, the
persisted draft under the assignment's key survives, the timer keeps running,
and a danger alert is surfaced — contradicting the claim's description of
every successful backend response. -/
theorem c2_counterexample :
    (handleSubmit (some "a1") submitStDraft
        (FetchOutcome.response true 200 Json.null)).result = none ∧
    (handleSubmit (some "a1") submitStDraft
        (FetchOutcome.response true 200 Json.null)).storage
        (localStorageKey (some "a1"))
        = some (encodeDraft [⟨"0", Answer.str "B"⟩]) ∧
    (handleSubmit (some "a1") submitStDraft
        (FetchOutcome.response true 200 Json.null)).timerRunning = true ∧
    (handleSubmit (some "a1") submitStDraft
        (FetchOutcome.response true 200 Json.null)).alert
        = some ⟨AlertType.danger, nullDataErrorMsg⟩ :=
  ⟨rfl, rfl, rfl, rfl⟩

/-- C2 (amended): with a resolved (truthy) assignment identifier, a successful
backend response whose body yields a payload (`json.data || json` does not
throw, i.e. the body is not null) stores the returned (possibly enveloped)
submission result, deletes the persisted draft under the assignment's storage
key, and stops the timer; a 2xx response with a null JSON body is handled as a
failure (the TypeError from `json.data` is caught): a danger alert is
surfaced and result, answers, persisted draft and timer are left unchanged; a
failed attempt (non-success response or network failure) surfaces an error
message derived from the response body's `message` field (or the rejection's
message) or a generic fallback, and leaves the in-memory answers and the
persisted draft unchanged. (As stated the claim fails on the null-body 2xx
response; see the counterexample.) -/
theorem c2_submission_lifecycle (aid : Option String) (st : SubmitState)
    (h : optStrTruthy aid = true) :
    (∀ status body data, jsDataOf body = some data →
      (handleSubmit aid st (FetchOutcome.response true status body)).result
          = some data ∧
      (handleSubmit aid st (FetchOutcome.response true status body)).storage
          (localStorageKey aid) = none ∧
      (handleSubmit aid st (FetchOutcome.response true status body)).timerRunning
          = false) ∧
    (∀ status,
      (handleSubmit aid st (FetchOutcome.response true status Json.null)).alert
          = some ⟨AlertType.danger, nullDataErrorMsg⟩ ∧
      (handleSubmit aid st (FetchOutcome.response true status Json.null)).result
          = st.result ∧
      (handleSubmit aid st (FetchOutcome.response true status Json.null)).answers
          = st.answers ∧
      (handleSubmit aid st (FetchOutcome.response true status Json.null)).storage
          = st.storage ∧
      (handleSubmit aid st (FetchOutcome.response true status Json.null)).timerRunning
          = st.timerRunning) ∧
    (∀ status body,
      (handleSubmit aid st (FetchOutcome.response false status body)).alert
          = some ⟨AlertType.danger, (jsonMessage body).getD (submitFailMsg status)⟩ ∧
      (handleSubmit aid st (FetchOutcome.response false status body)).answers
          = st.answers ∧
      (handleSubmit aid st (FetchOutcome.response false status body)).storage
          = st.storage) ∧
    (∀ m,
      (handleSubmit aid st (FetchOutcome.networkError m)).alert
          = some ⟨AlertType.danger, if m = "" then "Submission failed" else m⟩ ∧
      (handleSubmit aid st (FetchOutcome.networkError m)).answers = st.answers ∧
      (handleSubmit aid st (FetchOutcome.networkError m)).storage = st.storage) := by
  refine ⟨?_, ?_, ?_, ?_⟩
  · intro status body data hd
    refine ⟨?_, ?_, ?_⟩ <;> simp [handleSubmit, h, hd, storageRemove]
  · intro status
    refine ⟨?_, ?_, ?_, ?_, ?_⟩ <;> simp [handleSubmit, h, jsDataOf]
  · intro status body
    refine ⟨?_, ?_, ?_⟩ <;> simp [handleSubmit, h]
  · intro m
    refine ⟨?_, ?_, ?_⟩ <;> simp [handleSubmit, h]

theorem c2_submission_lifecycle_witness :
    (handleSubmit (some "a1") submitStEx (FetchOutcome.response true 200 okBody)).result
        = some (Json.obj [("status", Json.str "SUBMITTED"), ("attemptNumber", Json.num 1)]) ∧
    (handleSubmit (some "a1") submitStEx (FetchOutcome.response true 200 okBody)).storage
        (localStorageKey (some "a1")) = none ∧
    (handleSubmit (some "a1") submitStEx (FetchOutcome.response true 200 okBody)).timerRunning
        = false ∧
    (handleSubmit (some "a1") submitStEx (FetchOutcome.response true 200 Json.null)).timerRunning
        = submitStEx.timerRunning ∧
    (handleSubmit (some "a1") submitStEx (FetchOutcome.response false 500
        (Json.obj [("message", Json.str "quota exceeded")]))).answers
        = submitStEx.answers := by
  have h := c2_submission_lifecycle (some "a1") submitStEx (by decide)
  obtain ⟨h1, h0, h2, h3⟩ := h
  have hok := h1 200 okBody
    (Json.obj [("status", Json.str "SUBMITTED"), ("attemptNumber", Json.num 1)]) rfl
  exact ⟨hok.1, hok.2.1, hok.2.2, (h0 200).2.2.2.2,
    (h2 500 (Json.obj [("message", Json.str "quota exceeded")])).2.1⟩

/-- C6 (amended): the grade request carries the edited score (when present),
the edited feedback (when present), and the fixed status string "GRADED" (not
lowercase "graded"); on success every list row carrying the selected
submission's identifier is patched to the new score (keeping the old score if
the edit is absent) and status "GRADED" while all other rows are unchanged,
and the detail record is patched the same way before the detail view is
closed (selection and grading form cleared); on failure an error derived from
the body's `message` or a generic fallback is surfaced and neither the list
nor the selection nor the grading form changes. (As stated the claim fails:
the request status is "GRADED", not "graded", and the final detail state is
cleared rather than left patched; see the counterexample.) -/
theorem c6_save_grade (st : ReviewState) (sel : Submission) (g : Grading)
    (hsel : st.selected = some sel) (hg : st.grading = some g) :
    jsonLookup (gradeBodyJson g) "status" = some (Json.str "GRADED") ∧
    (∀ n, g.score = some n →
      jsonLookup (gradeBodyJson g) "score" = some (Json.num n)) ∧
    (∀ f, g.feedback = some f →
      jsonLookup (gradeBodyJson g) "feedback" = some (Json.str f)) ∧
    (∀ status body,
      (saveGrade st (FetchOutcome.response true status body)).submissions
          = st.submissions.map
              (fun p => if p._id = sel._id then patchSubmission g p else p) ∧
      patchSelected g st.selected = some (patchSubmission g sel) ∧
      (patchSubmission g sel).status = "GRADED" ∧
      (∀ n, g.score = some n → (patchSubmission g sel).score = some n) ∧
      (saveGrade st (FetchOutcome.response true status body)).selected = none ∧
      (saveGrade st (FetchOutcome.response true status body)).grading = none ∧
      (saveGrade st (FetchOutcome.response true status body)).error = st.error) ∧
    (∀ status body,
      (saveGrade st (FetchOutcome.response false status body)).error
          = some ((jsonMessage body).getD (saveFailMsg status)) ∧
      (saveGrade st (FetchOutcome.response false status body)).submissions
          = st.submissions ∧
      (saveGrade st (FetchOutcome.response false status body)).selected
          = st.selected ∧
      (saveGrade st (FetchOutcome.response false status body)).grading
          = st.grading) ∧
    (∀ m,
      (saveGrade st (FetchOutcome.networkError m)).error = some m ∧
      (saveGrade st (FetchOutcome.networkError m)).submissions = st.submissions ∧
      (saveGrade st (FetchOutcome.networkError m)).selected = st.selected ∧
      (saveGrade st (FetchOutcome.networkError m)).grading = st.grading) := by
  refine ⟨?_, ?_, ?_, ?_, ?_, ?_⟩
  · cases hs : g.score <;> cases hf : g.feedback <;>
      simp [gradeBodyJson, jsonLookup, List.lookup, hs, hf]
  · intro n hn
    cases hf : g.feedback <;>
      simp [gradeBodyJson, jsonLookup, List.lookup, hn, hf]
  · intro f hf
    cases hs : g.score <;>
      simp [gradeBodyJson, jsonLookup, List.lookup, hf, hs]
  · intro status body
    refine ⟨?_, ?_, rfl, ?_, ?_, ?_, ?_⟩
    · simp [saveGrade, hsel, hg]
    · rw [hsel]; rfl
    · intro n hn; simp [patchSubmission, hn]
    · simp [saveGrade, hsel, hg]
    · simp [saveGrade, hsel, hg]
    · simp [saveGrade, hsel, hg]
  · intro status body
    refine ⟨?_, ?_, ?_, ?_⟩ <;> simp [saveGrade, hsel, hg]
  · intro m
    refine ⟨?_, ?_, ?_, ?_⟩ <;> simp [saveGrade, hsel, hg]

/-- C6 counterexample: at a concrete grading of score 85 and feedback
"Good work", the request carries the status string "GRADED", not "graded" as
claimed, and after a successful save the detail view is cleared rather than
left patched to the new score. -/
theorem c6_counterexample :
    jsonLookup (gradeBodyJson gradingEx) "status" = some (Json.str "GRADED") ∧
    Json.str "GRADED" ≠ Json.str "graded" ∧
    (saveGrade reviewStEx okResponse).selected = none ∧
    (saveGrade reviewStEx okResponse).selected
      ≠ some (patchSubmission gradingEx subEx) := by
  refine ⟨rfl, ?_, rfl, ?_⟩
  · intro hcontra
    injection hcontra with hs
    exact absurd hs (by decide)
  · intro hcontra
    have h3 : (saveGrade reviewStEx okResponse).selected = none := rfl
    rw [h3] at hcontra
    exact Option.noConfusion hcontra

theorem c6_save_grade_witness :
    (saveGrade reviewStEx (FetchOutcome.response true 200 (Json.obj []))).submissions
        = [patchSubmission gradingEx subEx, subEx2] ∧
    (saveGrade reviewStEx (FetchOutcome.response true 200 (Json.obj []))).selected = none ∧
    (patchSubmission gradingEx subEx).score = some 85 ∧
    (patchSubmission gradingEx subEx).status = "GRADED" := by
  have h := c6_save_grade reviewStEx subEx gradingEx rfl rfl
  have h4 := h.2.2.2.1 200 (Json.obj [])
  refine ⟨?_, h4.2.2.2.2.1, h4.2.2.2.1 85 rfl, h4.2.2.1⟩
  rw [h4.1]
  decide

/-- C10 (amended): when the edited score is absent (score input cleared), the
request body omits the `score` field, and a successful save patches each list
row with the selected identifier to status "GRADED" while keeping its previous
score; the detail record is patched the same way before the detail view is
closed (so the final detail state is cleared, not left showing the patched
record). (As stated the claim fails on the detail view; see the
counterexample.) -/
theorem c10_absent_score (st : ReviewState) (sel : Submission) (g : Grading)
    (hsel : st.selected = some sel) (hg : st.grading = some g)
    (hscore : g.score = none) :
    jsonLookup (gradeBodyJson g) "score" = none ∧
    (patchSubmission g sel).score = sel.score ∧
    (patchSubmission g sel).status = "GRADED" ∧
    (∀ gp, ∃ g2, onChangeScore gp none = some g2 ∧ g2.score = none) ∧
    (∀ status body,
      (saveGrade st (FetchOutcome.response true status body)).submissions
          = st.submissions.map
              (fun p => if p._id = sel._id then patchSubmission g p else p) ∧
      patchSelected g st.selected = some (patchSubmission g sel) ∧
      (saveGrade st (FetchOutcome.response true status body)).selected = none) := by
  refine ⟨?_, ?_, rfl, ?_, ?_⟩
  · cases hf : g.feedback <;>
      simp [gradeBodyJson, jsonLookup, List.lookup, hscore, hf]
  · simp [patchSubmission, hscore]
  · intro gp
    exact ⟨_, rfl, rfl⟩
  · intro status body
    refine ⟨?_, ?_, ?_⟩
    · simp [saveGrade, hsel, hg]
    · rw [hsel]; rfl
    · simp [saveGrade, hsel, hg]

/-- C10 counterexample: after a successful save with an absent score, the
detail view is cleared (`selected = none`), not left holding the patched
record with status "GRADED" and the previous score as the claim states. -/
theorem c10_counterexample :
    (saveGrade reviewSt10 okResponse).selected = none ∧
    (saveGrade reviewSt10 okResponse).selected
      ≠ some (patchSubmission gradingNoScore subEx) := by
  refine ⟨rfl, ?_⟩
  intro hcontra
  have h3 : (saveGrade reviewSt10 okResponse).selected = none := rfl
  rw [h3] at hcontra
  exact Option.noConfusion hcontra

theorem c10_absent_score_witness :
    jsonLookup (gradeBodyJson gradingNoScore) "score" = none ∧
    (patchSubmission gradingNoScore subEx).score = some 70 ∧
    (patchSubmission gradingNoScore subEx).status = "GRADED" ∧
    (saveGrade reviewSt10 (FetchOutcome.response true 200 (Json.obj []))).submissions
        = [patchSubmission gradingNoScore subEx] := by
  have h := c10_absent_score reviewSt10 subEx gradingNoScore rfl rfl rfl
  refine ⟨h.1, ?_, h.2.2.1, ?_⟩
  · rw [h.2.1]; rfl
  · have h5 := (h.2.2.2.2 200 (Json.obj [])).1
    rw [h5]
    decide

theorem mem_dedupFirst (l : List String) (a : String) :
    a ∈ dedupFirst l ↔ a ∈ l := by
  induction l with
  | nil => simp [dedupFirst]
  | cons x t ih =>
    simp only [dedupFirst, List.mem_cons, List.mem_filter, decide_eq_true_eq]
    constructor
    · rintro (h | ⟨h1, h2⟩)
      · left; exact h
      · right; exact ih.mp h1
    · rintro (h | h)
      · left; exact h
      · by_cases hx : a = x
        · left; exact hx
        · right; exact ⟨ih.mpr h, hx⟩

theorem contains_dedupFirst (l : List String) (a : String) :
    (dedupFirst l).contains a = l.contains a := by
  by_cases h : a ∈ l
  · have h1 : a ∈ dedupFirst l := (mem_dedupFirst l a).mpr h
    simp [List.contains, List.elem_eq_mem, h, h1]
  · have h1 : a ∉ dedupFirst l := fun hc => h ((mem_dedupFirst l a).mp hc)
    simp [List.contains, List.elem_eq_mem, h, h1]

theorem dedupFirst_eq_nil (l : List String) : dedupFirst l = [] ↔ l = [] := by
  cases l <;> simp [dedupFirst]

/-- C8 (amended): a truthy route-level identifier is used directly and
discovery is skipped; with no cached user record (or an unparseable one)
discovery resolves nothing; a cached record with an empty identifier also
aborts discovery; and for a cached record with a nonempty identifier the
resolved assignment is the first element, in backend order, of the fetched
assignment list whose nonempty course identifier belongs to the set of
nonempty course identifiers of the current user's enrollments (none when no
such element exists). (As stated the claim fails for empty-string user and
course identifiers; see the counterexample.) -/
theorem c8_assignment_discovery (routeId : Option String) (user : Option IUserLS)
    (enrollments : List IEnrollment) (assigns : List IAssignmentLite) :
    (optStrTruthy routeId = true →
      resolveAssignmentId routeId user enrollments assigns = routeId) ∧
    (user = none → discoverAssignmentForUser user enrollments assigns = none) ∧
    (∀ u, user = some u → u._id = "" →
      discoverAssignmentForUser user enrollments assigns = none) ∧
    (∀ u, user = some u → u._id ≠ "" →
      discoverAssignmentForUser user enrollments assigns
        = specResolveAmended u enrollments assigns) := by
  refine ⟨?_, ?_, ?_, ?_⟩
  · intro h
    simp [resolveAssignmentId, h]
  · intro h
    simp [discoverAssignmentForUser, h]
  · intro u hu hid
    subst hu
    simp [discoverAssignmentForUser, hid]
  · intro u hu hne
    subst hu
    simp only [discoverAssignmentForUser, if_neg hne]
    by_cases hE : (enrolledCourseIds u._id enrollments).isEmpty
    · rw [if_pos hE]
      have hF : (((enrollments.filter (fun e => e.studentId.key == u._id)).map
            (fun e => e.courseId.key)).filter (fun cid => cid ≠ "")) = [] := by
        have hd : dedupFirst (((enrollments.filter (fun e => e.studentId.key == u._id)).map
            (fun e => e.courseId.key)).filter (fun cid => cid ≠ "")) = [] :=
          List.isEmpty_iff.mp hE
        exact (dedupFirst_eq_nil _).mp hd
      simp only [specResolveAmended, hF]
      simp [List.contains]
    · rw [if_neg hE]
      simp only [specResolveAmended]
      have hfilters : assigns.filter
            (fun a => a.courseId.key ≠ "" &&
              (enrolledCourseIds u._id enrollments).contains a.courseId.key)
          = assigns.filter
            (fun a => a.courseId.key ≠ "" &&
              (((enrollments.filter (fun e => e.studentId.key == u._id)).map
                  (fun e => e.courseId.key)).filter
                (fun cid => cid ≠ "")).contains a.courseId.key) := by
        apply List.filter_congr
        intro a _
        rw [enrolledCourseIds, contains_dedupFirst]
      rw [hfilters]

/-- C8 counterexample: two concrete inputs on which the claim's description of
discovery disagrees with the code. A cached user record whose `_id` is the
empty string exists, yet the code aborts while the claimed first-match rule
resolves assignment "a10"; and an enrollment whose course identifier is the
empty string is dropped by the code's falsy filters, while the claimed rule
resolves assignment "a11". -/
theorem c8_counterexample :
    (discoverAssignmentForUser (some userEmptyId) [enrollEmptySid] [assignC1] = none ∧
      specResolve userEmptyId [enrollEmptySid] [assignC1] = some "a10") ∧
    (discoverAssignmentForUser (some userU) [enrollEmptyCourse] [assignEmptyCourse] = none ∧
      specResolve userU [enrollEmptyCourse] [assignEmptyCourse] = some "a11") := by
  refine ⟨⟨?_, ?_⟩, ⟨?_, ?_⟩⟩ <;> decide

theorem c8_assignment_discovery_witness :
    resolveAssignmentId (some "r1") none [] [] = some "r1" ∧
    discoverAssignmentForUser none [enrollC2] [assignC2] = none ∧
    discoverAssignmentForUser (some userU) [enrollC2] [assignOther, assignC2]
        = specResolveAmended userU [enrollC2] [assignOther, assignC2] ∧
    specResolveAmended userU [enrollC2] [assignOther, assignC2] = some "a21" := by
  refine ⟨(c8_assignment_discovery (some "r1") none [] []).1 (by decide),
    (c8_assignment_discovery none none [enrollC2] [assignC2]).2.1 rfl,
    (c8_assignment_discovery none (some userU) [enrollC2]
      [assignOther, assignC2]).2.2.2 userU rfl (by decide),
    by decide⟩

end Elms
